import Mathlib

/-!
Shallow embedding of `kafka_utils/util/ssh.py` (remote-command execution layer).

Modelling conventions:
- Python is executed top to bottom in a class body, so of the two
  `sudo_command` / `exec_command` definition pairs in `Connection`, only the
  SECOND pair (lines 72-123) is active; the first pair (lines 43-57) is
  shadowed and not part of the behaviour.  The embedding models the active
  pair.
- External paramiko effects (opening channels, the agent request handler,
  pty allocation, submitting a command, reading the exit status, sftp
  operations) are recorded as events in a trace list, in the order the code
  performs them; the remote exit status and the success of each connection
  attempt are oracle parameters.
- `assert self.transport is not None` is modelled as an `assertionError`
  result with an empty trace (the assert sits before any channel operation).
- Python f-strings are embedded as string concatenation.
- `SSHConfig.lookup` is external (paramiko); its result for the target host
  is the `HostConfig` oracle.  `int(host_config["port"])` is absorbed into
  the oracle's already-parsed `port : Option Int` field.
-/

namespace Ssh

/-- Result of `ssh_config.lookup(host)` (paramiko): the alias-file entry for
a host alias.  paramiko always supplies `hostname`; the remaining fields are
present only when the entry sets them. -/
structure HostConfig where
  hostname : String
  user : Option String
  proxycommand : Option String
  identityfile : Option String
  port : Option Int
  deriving DecidableEq

/-- The keyword-argument dictionary `cfg` built by `ssh` (lines 152-175) and
passed to every `client.connect(**cfg)` call. -/
structure Cfg where
  hostname : String
  timeout : Int
  password : Option String
  username : Option String
  sock : Option String
  key_filename : Option String
  port : Option Int
  deriving DecidableEq

/-- Python truthiness of `if ssh_password:` — `None` and the empty string
are falsy (line 156). -/
def pyTruthy (s : Option String) : Option String :=
  match s with
  | none => none
  | some p => if p = "" then none else some p

/-- Lines 152-175 of `ssh`: build the `cfg` dictionary.  `hostname` and
`timeout` are always set from the call arguments; `password` is set when
`ssh_password` is truthy; when the user config file exists, the keys
`username`, `sock`, `key_filename`, `port` are set from the fields the
alias entry provides (`ProxyCommand(...)` is modelled by the proxy-command
string it wraps). -/
def buildCfg (host : String) (max_timeout : Int) (ssh_password : Option String)
    (config_file_exists : Bool) (lookup : String → HostConfig) : Cfg :=
  let base : Cfg :=
    { hostname := host
      timeout := max_timeout
      password := pyTruthy ssh_password
      username := none
      sock := none
      key_filename := none
      port := none }
  if config_file_exists then
    let host_config := lookup host
    { base with
      username := host_config.user
      sock := host_config.proxycommand
      key_filename := host_config.identityfile
      port := host_config.port }
  else
    base

/-- A paramiko `SSHClient`; `transport` is `client.get_transport()`, which is
present exactly when a session has been established. -/
structure SSHClient where
  transport : Option Unit
  deriving DecidableEq

/-- The `Connection` class: wraps the client, caches its transport, and
stores the two capability flags (lines 37-41). -/
structure Connection where
  client : SSHClient
  transport : Option Unit
  forward_agent : Bool
  sudoable : Bool
  deriving DecidableEq

/-- `Connection.__init__` (lines 37-41). -/
def Connection.make (client : SSHClient) (forward_agent : Bool) (sudoable : Bool) :
    Connection :=
  { client := client
    transport := client.transport
    forward_agent := forward_agent
    sudoable := sudoable }

/-- A `ChannelFile` stream handle as produced by `channel.makefile` /
`channel.makefile_stderr`. -/
structure ChannelFile where
  mode : String
  is_stderr : Bool
  bufsize : Int
  deriving DecidableEq

/-- The three stream handles returned by `exec_command` (lines 118-123). -/
def makeStreams (bufsize : Int) : ChannelFile × ChannelFile × ChannelFile :=
  (⟨"wb", false, bufsize⟩, ⟨"rb", false, bufsize⟩, ⟨"rb", true, bufsize⟩)

/-- Channel-level effects of `exec_command`, in program order. -/
inductive ChanEvent where
  | openSession
  | agentRequestHandler
  | getPty
  | execCommand (command : String)
  | recvExitStatus
  deriving DecidableEq

/-- How `exec_command` can fail: the `assert` on a missing transport, or the
`RuntimeError` raised on a non-zero exit status. -/
inductive ExecError where
  | assertionError
  | runtimeError (msg : String)
  deriving DecidableEq

/-- The active `Connection.exec_command` (lines 88-123).  `exitStatus` is the
oracle for `channel.recv_exit_status()`; the returned trace lists the channel
operations performed before returning or raising. -/
def Connection.exec_command (self : Connection) (command : String) (bufsize : Int)
    (check_status : Bool) (exitStatus : Int) :
    List ChanEvent × Except ExecError (ChannelFile × ChannelFile × ChannelFile) :=
  match self.transport with
  | none => ([], Except.error ExecError.assertionError)
  | some _ =>
    let events := [ChanEvent.openSession]
      ++ (if self.forward_agent then [ChanEvent.agentRequestHandler] else [])
      ++ (if self.sudoable then [ChanEvent.getPty] else [])
      ++ [ChanEvent.execCommand command]
    if check_status then
      let events := events ++ [ChanEvent.recvExitStatus]
      if exitStatus ≠ 0 then
        (events, Except.error (ExecError.runtimeError
          ("Command execution error: " ++ command)))
      else
        (events, Except.ok (makeStreams bufsize))
    else
      (events, Except.ok (makeStreams bufsize))

/-- The active `Connection.sudo_command` (lines 72-86): prefixes the command
with "sudo " and delegates to `exec_command` passing only the buffer size, so
`check_status` takes its default value `true`. -/
def Connection.sudo_command (self : Connection) (command : String) (bufsize : Int)
    (exitStatus : Int) :
    List ChanEvent × Except ExecError (ChannelFile × ChannelFile × ChannelFile) :=
  self.exec_command ("sudo " ++ command) bufsize true exitStatus

/-- Sftp-level effects of `put_file`, in program order. -/
inductive SftpEvent where
  | openSftpClient
  | put (local_path : String) (remote_path : String)
  | closeSftp
  deriving DecidableEq

/-- How `put_file` can fail: the `assert` on a missing transport, or a
transfer error propagating out of `sftp.put`. -/
inductive PutError where
  | assertionError
  | transferError
  deriving DecidableEq

/-- `Connection.put_file` (lines 59-70).  `putSucceeds` is the oracle for
whether `sftp.put` completes; there is no try/finally, so `sftp.close()`
runs only when `sftp.put` returned normally. -/
def Connection.put_file (self : Connection) (local_path : String)
    (remote_path : String) (putSucceeds : Bool) :
    List SftpEvent × Option PutError :=
  match self.transport with
  | none => ([], some PutError.assertionError)
  | some _ =>
    if putSucceeds then
      ([SftpEvent.openSftpClient, SftpEvent.put local_path remote_path,
        SftpEvent.closeSftp], none)
    else
      ([SftpEvent.openSftpClient, SftpEvent.put local_path remote_path],
        some PutError.transferError)

/-- The retry loop of `ssh` (lines 177-189), started at `attempts := 0`.
`connects k` is the oracle for whether the k-th call of `client.connect`
succeeds (a failure is an `OSError`); `errMsg k` is `str(e)` for that
attempt.  Returns the final value of `attempts`, the lines printed, and
whether the loop exited via `break` (i.e. with a connection). -/
def sshLoop (host : String) (connects : Nat → Bool) (errMsg : Nat → String)
    (max_attempts : Int) (attempts : Nat) : Nat × List String × Bool :=
  if _h : (attempts : Int) < max_attempts then
    let a := attempts + 1
    if connects a then
      (a, [], true)
    else
      if _ha : (a : Int) < max_attempts then
        let r := sshLoop host connects errMsg max_attempts a
        (r.1, ("SSH to host " ++ host ++ " failed, retrying...") :: r.2.1, r.2.2)
      else
        (a, ["SSH Exception: " ++ errMsg a], false)
  else
    (attempts, [], false)
termination_by (max_attempts - attempts).toNat
decreasing_by simp_wf; omega

/-- Outcome of the `ssh` context manager: either the `Connection` yielded to
the caller, or the `MaxConnectionAttemptsError` raised by the loop's `else`
clause. -/
inductive SshOutcome where
  | connected (conn : Connection)
  | maxAttemptsError (msg : String)
  deriving DecidableEq

/-- Everything observable about one `ssh(...)` call: the `cfg` dictionary
passed to every `client.connect` call, the final attempt counter, the lines
printed, and the outcome. -/
structure SshResult where
  cfg : Cfg
  attemptsMade : Nat
  printed : List String
  outcome : SshOutcome
  deriving DecidableEq

/-- The `ssh` context manager (lines 127-195).  A successful
`client.connect` establishes the client's transport, so the client wrapped
on success carries `transport = some ()`.  The `while ... else` clause
raises `MaxConnectionAttemptsError` exactly when the loop finished without
`break`. -/
def ssh (host : String) (forward_agent : Bool) (sudoable : Bool)
    (max_attempts : Int) (max_timeout : Int) (ssh_password : Option String)
    (config_file_exists : Bool) (lookup : String → HostConfig)
    (connects : Nat → Bool) (errMsg : Nat → String) : SshResult :=
  let cfg := buildCfg host max_timeout ssh_password config_file_exists lookup
  let r := sshLoop host connects errMsg max_attempts 0
  if r.2.2 then
    { cfg := cfg
      attemptsMade := r.1
      printed := r.2.1
      outcome := SshOutcome.connected
        (Connection.make { transport := some () } forward_agent sudoable) }
  else
    { cfg := cfg
      attemptsMade := r.1
      printed := r.2.1
      outcome := SshOutcome.maxAttemptsError
        ("Exceeded max attempts to connect to host " ++ host ++ " after "
          ++ toString max_attempts ++ " retries") }

/-- Which process stream a printed line goes to; a bare `print(...)` goes to
the standard output channel. -/
inductive OutChan where
  | stdout
  | stderr
  deriving DecidableEq

/-- `report_stdout` (lines 198-210).  The stream argument is modelled by the
line list `stdout.readlines()` yields; each printed line is paired with the
channel it is printed on. -/
def report_stdout (host : String) (lines : List String) : List (OutChan × String) :=
  if lines.isEmpty then
    []
  else
    (OutChan.stdout, "STDOUT from " ++ host ++ ":")
      :: lines.map (fun line => (OutChan.stdout, line.trimRight))

/-- `report_stderr` (lines 213-225).  The header is printed with a bare
`print`, hence on standard output; the lines themselves go to `sys.stderr`. -/
def report_stderr (host : String) (lines : List String) : List (OutChan × String) :=
  if lines.isEmpty then
    []
  else
    (OutChan.stdout, "STDERR from " ++ host ++ ":")
      :: lines.map (fun line => (OutChan.stderr, line.trimRight))

/-- A concrete `Connection` whose session is established. -/
def connOk : Connection :=
  { client := { transport := some () }
    transport := some ()
    forward_agent := false
    sudoable := false }

/-- A concrete `Connection` whose session was never established. -/
def connNoSession : Connection :=
  { client := { transport := none }
    transport := none
    forward_agent := false
    sudoable := false }

/-- A concrete alias-file entry carrying only paramiko's mandatory
`hostname` field. -/
def emptyLookup : String → HostConfig :=
  fun h => { hostname := h, user := none, proxycommand := none,
             identityfile := none, port := none }

/-- A concrete alias-file entry specifying a hostname override and nothing
else. -/
def overrideLookup : String → HostConfig :=
  fun _ => { hostname := "real.example.com", user := none, proxycommand := none,
             identityfile := none, port := none }

/-- A concrete alias-file entry with `port = 2222` and no `user` field. -/
def portOnlyLookup : String → HostConfig :=
  fun h => { hostname := h, user := none, proxycommand := none,
             identityfile := none, port := some 2222 }

end Ssh

namespace Ssh

/-- Helper: when every `client.connect` call fails with an `OSError`, the
retry loop runs until the attempt counter reaches `max_attempts` and exits
without `break`. -/
theorem sshLoop_all_fail (host : String) (connects : Nat → Bool) (errMsg : Nat → String)
    (hall : ∀ k, connects k = false) :
    ∀ (n : Nat) (ma : Int) (att : Nat), (ma - att).toNat ≤ n → (att : Int) < ma →
      (sshLoop host connects errMsg ma att).1 = ma.toNat ∧
      (sshLoop host connects errMsg ma att).2.2 = false := by
  intro n
  induction n with
  | zero =>
    intro ma att hle hlt
    exfalso; omega
  | succ n ih =>
    intro ma att hle hlt
    rw [sshLoop]
    rw [dif_pos hlt]
    simp only [hall (att + 1), Bool.false_eq_true, if_false]
    by_cases hb : ((att + 1 : Nat) : Int) < ma
    · rw [dif_pos hb]
      obtain ⟨h1, h2⟩ := ih ma (att + 1) (by omega) hb
      exact ⟨h1, h2⟩
    · rw [dif_neg hb]
      refine ⟨?_, rfl⟩
      show att + 1 = ma.toNat
      omega

/-- Helper: when the k-th `client.connect` call succeeds and every earlier
one failed with an `OSError`, the retry loop exits via `break` with the
attempt counter equal to k. -/
theorem sshLoop_succeeds (host : String) (connects : Nat → Bool) (errMsg : Nat → String)
    (k : Nat) (hk : connects k = true) (hbefore : ∀ j, j < k → connects j = false) :
    ∀ (n : Nat) (ma : Int) (att : Nat), k - att ≤ n → att < k → (k : Int) ≤ ma →
      (sshLoop host connects errMsg ma att).1 = k ∧
      (sshLoop host connects errMsg ma att).2.2 = true := by
  intro n
  induction n with
  | zero =>
    intro ma att hle hlt hkm
    exfalso; omega
  | succ n ih =>
    intro ma att hle hlt hkm
    rw [sshLoop]
    rw [dif_pos (by omega : (att : Int) < ma)]
    by_cases heq : att + 1 = k
    · simp only [heq, hk, if_true]
      exact ⟨trivial, trivial⟩
    · simp only [hbefore (att + 1) (by omega), Bool.false_eq_true, if_false]
      rw [dif_pos (by omega : ((att + 1 : Nat) : Int) < ma)]
      obtain ⟨h1, h2⟩ := ih ma (att + 1) (by omega) (by omega) hkm
      exact ⟨h1, h2⟩

/-- C1: for `max_attempts = N` with `N ≥ 1`, if every connection attempt
fails with an `OSError`, then `ssh` makes exactly N attempts and raises
`MaxConnectionAttemptsError` whose message names the host and N; the error
outcome is the one produced by the loop's `else` clause, i.e. only after the
loop exited without success. -/
theorem ssh_all_attempts_fail (host : String) (fa su : Bool) (N : Nat)
    (mt : Int) (pw : Option String) (cfe : Bool) (lookup : String → HostConfig)
    (connects : Nat → Bool) (errMsg : Nat → String)
    (hN : 1 ≤ N) (hall : ∀ k, connects k = false) :
    (ssh host fa su (N : Int) mt pw cfe lookup connects errMsg).attemptsMade = N ∧
    (ssh host fa su (N : Int) mt pw cfe lookup connects errMsg).outcome =
      SshOutcome.maxAttemptsError
        ("Exceeded max attempts to connect to host " ++ host ++ " after "
          ++ toString ((N : Nat) : Int) ++ " retries") := by
  obtain ⟨h1, h2⟩ := sshLoop_all_fail host connects errMsg hall N (N : Int) 0
    (by omega) (by omega)
  simp only [ssh, h2, Bool.false_eq_true, if_false]
  refine ⟨?_, trivial⟩
  rw [h1]
  omega

/-- Witness for C1 at host "h1", N = 2, all attempts failing. -/
theorem ssh_all_attempts_fail_witness :
    (ssh "h1" false false ((2 : Nat) : Int) 5 none false emptyLookup
        (fun _ => false) (fun _ => "err")).attemptsMade = 2 ∧
    (ssh "h1" false false ((2 : Nat) : Int) 5 none false emptyLookup
        (fun _ => false) (fun _ => "err")).outcome =
      SshOutcome.maxAttemptsError
        ("Exceeded max attempts to connect to host " ++ "h1" ++ " after "
          ++ toString (((2 : Nat) : Nat) : Int) ++ " retries") :=
  ssh_all_attempts_fail "h1" false false 2 5 none false emptyLookup
    (fun _ => false) (fun _ => "err") (by decide) (fun _ => rfl)

/-- C4: for `max_attempts = N` and a connection that first succeeds on
attempt `k` with `1 ≤ k ≤ N`, `ssh` makes exactly k attempts, yields a
`Connection` wrapping the established client together with the
`forward_agent` and `sudoable` flags, and raises no exhaustion error. -/
theorem ssh_connects_at_attempt_k (host : String) (fa su : Bool) (N k : Nat)
    (mt : Int) (pw : Option String) (cfe : Bool) (lookup : String → HostConfig)
    (connects : Nat → Bool) (errMsg : Nat → String)
    (hk1 : 1 ≤ k) (hkN : k ≤ N)
    (hk : connects k = true) (hbefore : ∀ j, j < k → connects j = false) :
    (ssh host fa su (N : Int) mt pw cfe lookup connects errMsg).attemptsMade = k ∧
    (ssh host fa su (N : Int) mt pw cfe lookup connects errMsg).outcome =
      SshOutcome.connected
        { client := { transport := some () }
          transport := some ()
          forward_agent := fa
          sudoable := su } := by
  obtain ⟨h1, h2⟩ := sshLoop_succeeds host connects errMsg k hk hbefore k (N : Int) 0
    (by omega) (by omega) (by omega)
  simp only [ssh, h2, if_true]
  exact ⟨h1, rfl⟩

/-- Witness for C4 at host "h1", N = 3, success on attempt 2. -/
theorem ssh_connects_at_attempt_k_witness :
    (ssh "h1" true true ((3 : Nat) : Int) 5 none false emptyLookup
        (fun n => decide (n = 2)) (fun _ => "err")).attemptsMade = 2 ∧
    (ssh "h1" true true ((3 : Nat) : Int) 5 none false emptyLookup
        (fun n => decide (n = 2)) (fun _ => "err")).outcome =
      SshOutcome.connected
        { client := { transport := some () }
          transport := some ()
          forward_agent := true
          sudoable := true } :=
  ssh_connects_at_attempt_k "h1" true true 3 2 5 none false emptyLookup
    (fun n => decide (n = 2)) (fun _ => "err")
    (by decide) (by decide) (by decide) (by decide)

/-- C10: for `max_attempts ≤ 0` the loop body never runs: zero attempts are
made, nothing is printed, and `MaxConnectionAttemptsError` is raised
immediately, its message citing the given `max_attempts` value. -/
theorem ssh_nonpositive_max_attempts (host : String) (fa su : Bool) (ma : Int)
    (mt : Int) (pw : Option String) (cfe : Bool) (lookup : String → HostConfig)
    (connects : Nat → Bool) (errMsg : Nat → String)
    (hma : ma ≤ 0) :
    (ssh host fa su ma mt pw cfe lookup connects errMsg).attemptsMade = 0 ∧
    (ssh host fa su ma mt pw cfe lookup connects errMsg).printed = [] ∧
    (ssh host fa su ma mt pw cfe lookup connects errMsg).outcome =
      SshOutcome.maxAttemptsError
        ("Exceeded max attempts to connect to host " ++ host ++ " after "
          ++ toString ma ++ " retries") := by
  have h0 : sshLoop host connects errMsg ma 0 = (0, [], false) := by
    rw [sshLoop]
    rw [dif_neg (by omega : ¬ (((0 : Nat) : Int) < ma))]
  simp only [ssh, h0, Bool.false_eq_true, if_false]
  exact ⟨trivial, trivial, trivial⟩

/-- Witness for C10 at `max_attempts = -3`. -/
theorem ssh_nonpositive_max_attempts_witness :
    (ssh "h1" false false (-3) 5 none false emptyLookup
        (fun _ => true) (fun _ => "err")).attemptsMade = 0 ∧
    (ssh "h1" false false (-3) 5 none false emptyLookup
        (fun _ => true) (fun _ => "err")).printed = [] ∧
    (ssh "h1" false false (-3) 5 none false emptyLookup
        (fun _ => true) (fun _ => "err")).outcome =
      SshOutcome.maxAttemptsError
        ("Exceeded max attempts to connect to host " ++ "h1" ++ " after "
          ++ toString (-3 : Int) ++ " retries") :=
  ssh_nonpositive_max_attempts "h1" false false (-3) 5 none false emptyLookup
    (fun _ => true) (fun _ => "err") (by decide)

end Ssh

namespace Ssh

/-- Helper: the channel-operation trace of `exec_command` on an established
connection, for either value of `check_status`. -/
theorem exec_command_trace (conn : Connection) (u : Unit)
    (htr : conn.transport = some u) (C : String) (bufsize es : Int) (cs : Bool) :
    (conn.exec_command C bufsize cs es).1 =
      [ChanEvent.openSession]
        ++ (if conn.forward_agent then [ChanEvent.agentRequestHandler] else [])
        ++ (if conn.sudoable then [ChanEvent.getPty] else [])
        ++ [ChanEvent.execCommand C]
        ++ (if cs then [ChanEvent.recvExitStatus] else []) := by
  simp only [Connection.exec_command, htr]
  cases cs
  · simp
  · by_cases hz : es = 0 <;> simp [hz]

/-- C2: with an established session, `exec_command(C, check_status=true)`
reads the exit status (it blocks until the remote process exits), returns
the three stream handles when the status is 0, and raises a RuntimeError
naming C when the status is non-zero; with `check_status=false` the exit
status is never read, the three stream handles are returned, and the result
is the same for every exit status value. -/
theorem exec_command_status_check (conn : Connection) (u : Unit)
    (htr : conn.transport = some u) (C : String) (bufsize es : Int) :
    (es = 0 →
      (conn.exec_command C bufsize true es).2 = Except.ok (makeStreams bufsize) ∧
      ChanEvent.recvExitStatus ∈ (conn.exec_command C bufsize true es).1) ∧
    (es ≠ 0 →
      (conn.exec_command C bufsize true es).2 =
        Except.error (ExecError.runtimeError ("Command execution error: " ++ C)) ∧
      ChanEvent.recvExitStatus ∈ (conn.exec_command C bufsize true es).1) ∧
    (conn.exec_command C bufsize false es).2 = Except.ok (makeStreams bufsize) ∧
    ChanEvent.recvExitStatus ∉ (conn.exec_command C bufsize false es).1 ∧
    ∀ es2 : Int, conn.exec_command C bufsize false es =
      conn.exec_command C bufsize false es2 := by
  refine ⟨fun h0 => ⟨?_, ?_⟩, fun hnz => ⟨?_, ?_⟩, ?_, ?_, fun es2 => ?_⟩
  · simp only [Connection.exec_command, htr]
    simp [h0]
  · rw [exec_command_trace conn u htr C bufsize es true]
    simp
  · simp only [Connection.exec_command, htr]
    simp [hnz]
  · rw [exec_command_trace conn u htr C bufsize es true]
    simp
  · simp only [Connection.exec_command, htr]
    simp
  · rw [exec_command_trace conn u htr C bufsize es false]
    split_ifs <;> simp_all
  · simp only [Connection.exec_command, htr]
    simp

/-- Witness for C2 on an established connection, command "ls", exit status
zero. -/
theorem exec_command_status_check_witness :
    (connOk.exec_command "ls" (-1) true 0).2 = Except.ok (makeStreams (-1)) ∧
    ChanEvent.recvExitStatus ∈ (connOk.exec_command "ls" (-1) true 0).1 :=
  (exec_command_status_check connOk () rfl "ls" (-1) 0).1 rfl

/-- C3: `sudo_command(C, bufsize)` delegates to
`exec_command("sudo " + C, bufsize)` yielding the identical result, and
every command string submitted on the channel is byte-identical to
`"sudo " + C`. -/
theorem sudo_command_delegation (conn : Connection) (C : String) (bufsize es : Int) :
    conn.sudo_command C bufsize es = conn.exec_command ("sudo " ++ C) bufsize true es ∧
    ∀ cmd : String, ChanEvent.execCommand cmd ∈ (conn.sudo_command C bufsize es).1 →
      cmd = "sudo " ++ C := by
  refine ⟨rfl, fun cmd hmem => ?_⟩
  rcases h : conn.transport with _ | u
  · simp only [Connection.sudo_command, Connection.exec_command, h] at hmem
    simp at hmem
  · simp only [Connection.sudo_command] at hmem
    rw [exec_command_trace conn u h ("sudo " ++ C) bufsize es true] at hmem
    split_ifs at hmem <;> simp_all

/-- Witness for C3 at command "ls": delegation result and byte-identity of
the submitted command string. -/
theorem sudo_command_delegation_witness :
    (connOk.sudo_command "ls" (-1) 0 = connOk.exec_command ("sudo " ++ "ls") (-1) true 0) ∧
    "sudo ls" = "sudo " ++ "ls" :=
  ⟨(sudo_command_delegation connOk "ls" (-1) 0).1,
   (sudo_command_delegation connOk "ls" (-1) 0).2 "sudo ls" (by decide)⟩

/-- C5: `report_stdout` / `report_stderr` print nothing for an empty line
list; for a non-empty list they print exactly one header naming the host
and the kind followed by one line per element with trailing whitespace
stripped, the stdout-kind lines on the standard output channel and the
stderr-kind lines on the standard error channel. -/
theorem report_streams_spec (host : String) (lines : List String) :
    (lines = [] → report_stdout host lines = [] ∧ report_stderr host lines = []) ∧
    (lines ≠ [] →
      report_stdout host lines =
        (OutChan.stdout, "STDOUT from " ++ host ++ ":")
          :: lines.map (fun line => (OutChan.stdout, line.trimRight)) ∧
      (report_stdout host lines).length = lines.length + 1 ∧
      report_stderr host lines =
        (OutChan.stdout, "STDERR from " ++ host ++ ":")
          :: lines.map (fun line => (OutChan.stderr, line.trimRight)) ∧
      (report_stderr host lines).length = lines.length + 1) := by
  constructor
  · intro h
    subst h
    exact ⟨rfl, rfl⟩
  · intro h
    have hne : lines.isEmpty = false := by
      cases lines
      · exact absurd rfl h
      · rfl
    refine ⟨?_, ?_, ?_, ?_⟩ <;> simp [report_stdout, report_stderr, hne]

/-- Witness for C5 at host "h1" and the two-line stream ["a  ", "b"]. -/
theorem report_streams_spec_witness :
    report_stdout "h1" ["a  ", "b"] =
      (OutChan.stdout, "STDOUT from " ++ "h1" ++ ":")
        :: ["a  ", "b"].map (fun line => (OutChan.stdout, line.trimRight)) ∧
    (report_stdout "h1" ["a  ", "b"]).length = (["a  ", "b"] : List String).length + 1 ∧
    report_stderr "h1" ["a  ", "b"] =
      (OutChan.stdout, "STDERR from " ++ "h1" ++ ":")
        :: ["a  ", "b"].map (fun line => (OutChan.stderr, line.trimRight)) ∧
    (report_stderr "h1" ["a  ", "b"]).length = (["a  ", "b"] : List String).length + 1 :=
  (report_streams_spec "h1" ["a  ", "b"]).2 (by simp)

/-- C6: invoking `exec_command`, `sudo_command` or `put_file` on a
`Connection` whose transport is absent fails immediately with the
assertion error, with an empty effect trace: no channel is opened and no
byte is sent. -/
theorem no_session_fails_fast (conn : Connection) (htr : conn.transport = none)
    (C lp rp : String) (bufsize es : Int) (cs putOk : Bool) :
    conn.exec_command C bufsize cs es = ([], Except.error ExecError.assertionError) ∧
    conn.sudo_command C bufsize es = ([], Except.error ExecError.assertionError) ∧
    conn.put_file lp rp putOk = ([], some PutError.assertionError) := by
  refine ⟨?_, ?_, ?_⟩ <;>
    simp [Connection.exec_command, Connection.sudo_command, Connection.put_file, htr]

/-- Witness for C6 on a connection that was never established. -/
theorem no_session_fails_fast_witness :
    connNoSession.exec_command "ls" (-1) true 0 =
      ([], Except.error ExecError.assertionError) ∧
    connNoSession.sudo_command "ls" (-1) 0 =
      ([], Except.error ExecError.assertionError) ∧
    connNoSession.put_file "/a" "/b" true = ([], some PutError.assertionError) :=
  no_session_fails_fast connNoSession rfl "ls" "/a" "/b" (-1) 0 true true

/-- C7 counterexample: on an established connection, when `sftp.put` fails
the transfer error propagates and `sftp.close()` is never reached — the
sub-channel is NOT released on the failure path, refuting the claim that it
is released on every outcome. -/
theorem put_file_close_cex :
    (connOk.put_file "/tmp/local" "/tmp/remote" false).2 = some PutError.transferError ∧
    ¬ SftpEvent.closeSftp ∈ (connOk.put_file "/tmp/local" "/tmp/remote" false).1 := by
  constructor
  · rfl
  · decide

/-- C7 amended: `put_file` opens the sftp sub-channel and copies the file;
the sub-channel is closed on successful completion, but when the transfer
fails the error propagates and the sub-channel is not closed. -/
theorem put_file_release_spec (conn : Connection) (u : Unit)
    (htr : conn.transport = some u) (lp rp : String) :
    conn.put_file lp rp true =
      ([SftpEvent.openSftpClient, SftpEvent.put lp rp, SftpEvent.closeSftp], none) ∧
    conn.put_file lp rp false =
      ([SftpEvent.openSftpClient, SftpEvent.put lp rp], some PutError.transferError) := by
  constructor <;> simp [Connection.put_file, htr]

/-- Witness for the amended C7 on an established connection. -/
theorem put_file_release_spec_witness :
    connOk.put_file "/a" "/b" true =
      ([SftpEvent.openSftpClient, SftpEvent.put "/a" "/b", SftpEvent.closeSftp], none) ∧
    connOk.put_file "/a" "/b" false =
      ([SftpEvent.openSftpClient, SftpEvent.put "/a" "/b"], some PutError.transferError) :=
  put_file_release_spec connOk () rfl "/a" "/b"

/-- C8: with the config file present, an alias entry with `port = 2222` and
no `user` field resolves to `port = 2222` with `username` unset; an alias
with no matching entry (paramiko returns an entry with none of the four
optional fields) resolves with all of username/port/sock/key_filename
unset; and a missing config file resolves the same way — `buildCfg` is
total, so neither case is an error. -/
theorem alias_resolution_spec (host : String) (mt : Int) (pw : Option String)
    (lookup : String → HostConfig) :
    (((lookup host).port = some 2222 ∧ (lookup host).user = none) →
      (buildCfg host mt pw true lookup).port = some 2222 ∧
      (buildCfg host mt pw true lookup).username = none) ∧
    (((lookup host).user = none ∧ (lookup host).proxycommand = none ∧
        (lookup host).identityfile = none ∧ (lookup host).port = none) →
      (buildCfg host mt pw true lookup).username = none ∧
      (buildCfg host mt pw true lookup).port = none ∧
      (buildCfg host mt pw true lookup).sock = none ∧
      (buildCfg host mt pw true lookup).key_filename = none) ∧
    ((buildCfg host mt pw false lookup).username = none ∧
      (buildCfg host mt pw false lookup).port = none ∧
      (buildCfg host mt pw false lookup).sock = none ∧
      (buildCfg host mt pw false lookup).key_filename = none) := by
  refine ⟨fun h => ?_, fun h => ?_, ?_⟩ <;> simp_all [buildCfg]

/-- Witness for C8 at alias "A" with a port-only entry. -/
theorem alias_resolution_spec_witness :
    (buildCfg "A" 5 none true portOnlyLookup).port = some 2222 ∧
    (buildCfg "A" 5 none true portOnlyLookup).username = none :=
  (alias_resolution_spec "A" 5 none portOnlyLookup).1 ⟨rfl, rfl⟩

/-- C9 counterexample: an alias entry for "h1" overriding the hostname to
"real.example.com" is ignored — the `cfg` passed to `client.connect` keeps
`hostname = "h1"` (the alias string), refuting the claim that resolution
yields the overridden hostname and that the connection targets it. -/
theorem hostname_override_cex :
    (overrideLookup "h1").hostname = "real.example.com" ∧
    (ssh "h1" false false 1 5 none true overrideLookup (fun _ => true)
        (fun _ => "err")).cfg.hostname = "h1" ∧
    (buildCfg "h1" 5 none true overrideLookup).hostname = "h1" ∧
    ("h1" : String) ≠ "real.example.com" := by
  refine ⟨rfl, ?_, rfl, by decide⟩
  simp only [ssh]
  split <;> rfl

/-- C9 amended: `ssh` never reads the `hostname` field of the alias entry —
the `cfg` passed to `client.connect` always carries the alias string itself
as hostname; only user, port, proxy command and identity file are taken
from the alias entry. -/
theorem hostname_ignores_override (host : String) (fa su : Bool) (ma mt : Int)
    (pw : Option String) (cfe : Bool) (lookup : String → HostConfig)
    (connects : Nat → Bool) (errMsg : Nat → String) :
    (ssh host fa su ma mt pw cfe lookup connects errMsg).cfg.hostname = host ∧
    (buildCfg host mt pw cfe lookup).hostname = host ∧
    (buildCfg host mt pw true lookup).username = (lookup host).user ∧
    (buildCfg host mt pw true lookup).port = (lookup host).port ∧
    (buildCfg host mt pw true lookup).sock = (lookup host).proxycommand ∧
    (buildCfg host mt pw true lookup).key_filename = (lookup host).identityfile := by
  have hcfg : ∀ c : Bool, (buildCfg host mt pw c lookup).hostname = host := by
    intro c
    cases c <;> rfl
  have hssh : (ssh host fa su ma mt pw cfe lookup connects errMsg).cfg =
      buildCfg host mt pw cfe lookup := by
    simp only [ssh]
    split <;> rfl
  exact ⟨by rw [hssh]; exact hcfg cfe, hcfg cfe, rfl, rfl, rfl, rfl⟩

end Ssh
